import Mathlib

/-
Verification of the OAuth 2.1 authorization bridge of the quickbooks MCP
server (src/auth/oauth-server.ts, stateless-token variant, plus its
constants).  The data model and the endpoint handlers are embedded as pure
Lean functions over explicit stores; the external collaborators (node
crypto, the intuit-oauth client, the WHATWG URL parser and the random token
generator) enter as explicit parameters.  Times are Unix milliseconds
represented as Nat, matching Date.now().
-/

set_option maxHeartbeats 1000000

/-! ## Key-value stores (JS Map with string keys, modelled as assoc lists) -/

abbrev Store (α : Type) : Type := List (String × α)

def Store.get {α : Type} : Store α → String → Option α
  | [], _ => none
  | (k, v) :: t, k' => if k = k' then some v else Store.get t k'

def Store.erase {α : Type} : Store α → String → Store α
  | [], _ => []
  | (k, v) :: t, k' => if k = k' then Store.erase t k' else (k, v) :: Store.erase t k'

def Store.set {α : Type} (s : Store α) (k : String) (v : α) : Store α :=
  (k, v) :: s.erase k

/-! ## Data model (types/index.ts as used by oauth-server.ts) -/

/-- StatelessTokenPayload: the payload encrypted into access/refresh tokens. -/
structure StatelessTokenPayload where
  type : String
  client_id : String
  realm_id : String
  qb_access_token : String
  qb_refresh_token : String
  expires_at : Nat
  issued_at : Nat
  deriving DecidableEq, Repr

/-- AuthorizationCode record stored in the authorizationCodes map. -/
structure AuthorizationCode where
  code : String
  client_id : String
  redirect_uri : String
  code_challenge : Option String
  code_challenge_method : Option String
  scope : Option String
  expires_at : Nat
  realm_id : String
  qb_access_token : String
  qb_refresh_token : String
  deriving DecidableEq, Repr

/-- OAuthClientRegistration record stored in the registeredClients map. -/
structure OAuthClientRegistration where
  client_id : String
  client_secret : Option String
  client_name : String
  redirect_uris : List String
  grant_types : List String
  response_types : List String
  token_endpoint_auth_method : String
  created_at : Nat
  deriving DecidableEq, Repr

/-- PendingAuthorization record stored in the pendingAuthorizations map. -/
structure PendingAuthorization where
  client_id : String
  redirect_uri : String
  state : Option String
  code_challenge : Option String
  code_challenge_method : Option String
  scope : Option String
  deriving DecidableEq, Repr

/-- TokenData: the legacy in-memory token record (and the compatibility
shape returned by validateAccessToken). -/
structure TokenData where
  client_id : String
  access_token : String
  refresh_token : Option String
  expires_at : Nat
  realm_id : Option String
  qb_access_token : Option String
  qb_refresh_token : Option String
  deriving DecidableEq, Repr

/-! ## Constants (src/constants.ts) -/

def TOKEN_EXPIRY_SECONDS : Nat := 3600

def AUTH_CODE_EXPIRY_SECONDS : Nat := 600

/-- JS truthiness of an optional string parameter: undefined and the empty
string are falsy, every other string is truthy. -/
def truthy : Option String → Bool
  | none => false
  | some s => if s = "" then false else true

/-- verifyCodeChallenge from oauth-server.ts, with the sha256/base64url
digest of node crypto passed in as a function parameter. -/
def verifyCodeChallenge (sha256b64 : String → String)
    (codeVerifier codeChallenge method : String) : Bool :=
  if method = "plain" then codeVerifier = codeChallenge
  else sha256b64 codeVerifier = codeChallenge

/-! ## Token endpoint (POST /token, stateless variant) -/

/-- The request body of POST /token after merging HTTP Basic credentials
into client_id / client_secret (lines 434-444 of oauth-server.ts). -/
structure TokenRequest where
  grant_type : Option String
  code : Option String
  redirect_uri : Option String
  code_verifier : Option String
  refresh_token : Option String
  client_id : Option String
  client_secret : Option String
  deriving DecidableEq, Repr

/-- The HTTP response of POST /token: either the JSON success body (with
the two payloads still in clear, encryption is applied on top) or an error
JSON with its HTTP status. -/
inductive TokenResult where
  | success (access_payload refresh_payload : StatelessTokenPayload) (scope : String)
  | error (status : Nat) (err desc : String)
  deriving DecidableEq, Repr

def TokenResult.isSuccess : TokenResult → Bool
  | .success _ _ _ => true
  | .error _ _ _ => false

/-- Client validation for the authorization_code grant (lines 450-471). -/
def clientAuth (clients : Store OAuthClientRegistration) (req : TokenRequest) :
    Except TokenResult String :=
  match req.client_id with
  | none => .error (.error 401 "invalid_client" "Unknown client")
  | some cid =>
    match clients.get cid with
    | none => .error (.error 401 "invalid_client" "Unknown client")
    | some client =>
      if client.token_endpoint_auth_method ≠ "none" ∧ client.client_secret ≠ req.client_secret then
        .error (.error 401 "invalid_client" "Invalid client credentials")
      else .ok cid

/-- Expiry check, single-use deletion and token minting of the
authorization_code grant (lines 529-576): everything after the PKCE check. -/
def finishAuthCodeGrant (codes : Store AuthorizationCode) (now : Nat) (c : String)
    (authCode : AuthorizationCode) (clientId : String) :
    Store AuthorizationCode × TokenResult :=
  if now > authCode.expires_at then
    (codes.erase c, .error 400 "invalid_grant" "Authorization code has expired")
  else
    let accessPayload : StatelessTokenPayload :=
      { type := "access", client_id := clientId, realm_id := authCode.realm_id,
        qb_access_token := authCode.qb_access_token,
        qb_refresh_token := authCode.qb_refresh_token,
        expires_at := now + TOKEN_EXPIRY_SECONDS * 1000, issued_at := now }
    let refreshPayload : StatelessTokenPayload :=
      { accessPayload with type := "refresh", expires_at := now + 90 * 24 * 60 * 60 * 1000 }
    (codes.erase c, .success accessPayload refreshPayload
      (match authCode.scope with
       | some s => if s = "" then "quickbooks:accounting" else s
       | none => "quickbooks:accounting"))

/-- The authorization_code branch of POST /token (lines 473-577), after
client validation resolved clientId. -/
def authCodeGrant (codes : Store AuthorizationCode) (sha256b64 : String → String)
    (now : Nat) (req : TokenRequest) (clientId : String) :
    Store AuthorizationCode × TokenResult :=
  match req.code with
  | none => (codes, .error 400 "invalid_request" "code is required")
  | some c =>
    if c = "" then (codes, .error 400 "invalid_request" "code is required")
    else
      match codes.get c with
      | none => (codes, .error 400 "invalid_grant" "Invalid or expired authorization code")
      | some authCode =>
        if authCode.client_id ≠ clientId then
          (codes, .error 400 "invalid_grant" "Authorization code was not issued to this client")
        else if req.redirect_uri ≠ some authCode.redirect_uri then
          (codes, .error 400 "invalid_grant" "redirect_uri does not match")
        else
          match authCode.code_challenge with
          | none => finishAuthCodeGrant codes now c authCode clientId
          | some ch =>
            if ch = "" then finishAuthCodeGrant codes now c authCode clientId
            else
              match req.code_verifier with
              | none => (codes, .error 400 "invalid_request" "code_verifier is required")
              | some v =>
                if v = "" then (codes, .error 400 "invalid_request" "code_verifier is required")
                else if ¬ verifyCodeChallenge sha256b64 v ch
                    (authCode.code_challenge_method.getD "S256") then
                  (codes, .error 400 "invalid_grant" "Invalid code_verifier")
                else finishAuthCodeGrant codes now c authCode clientId

/-- The refresh_token branch of POST /token (lines 579-680).  dec is the
decryptTokenPayload closure; qbRefresh models the upstream
refreshUsingToken call (none = the call threw, the handler falls back to
the stale embedded credentials). -/
def refreshGrant (dec : String → Option StatelessTokenPayload)
    (qbRefresh : String → Option (String × String)) (now : Nat) (req : TokenRequest) :
    TokenResult :=
  match req.refresh_token with
  | none => .error 400 "invalid_request" "refresh_token is required"
  | some rt =>
    if rt = "" then .error 400 "invalid_request" "refresh_token is required"
    else
      match dec rt with
      | none => .error 400 "invalid_grant" "Invalid refresh token"
      | some payload =>
        if payload.type ≠ "refresh" then
          .error 400 "invalid_grant" "Token is not a refresh token"
        else if now > payload.expires_at then
          .error 400 "invalid_grant" "Refresh token has expired"
        else if truthy req.client_id ∧ req.client_id ≠ some payload.client_id then
          .error 400 "invalid_grant" "Refresh token was not issued to this client"
        else
          let effectiveClientId :=
            match req.client_id with
            | some cid => if cid = "" then payload.client_id else cid
            | none => payload.client_id
          let qbTokens : String × String :=
            if payload.qb_refresh_token = "" then
              (payload.qb_access_token, payload.qb_refresh_token)
            else
              match qbRefresh payload.qb_refresh_token with
              | some p => p
              | none => (payload.qb_access_token, payload.qb_refresh_token)
          let accessPayload : StatelessTokenPayload :=
            { type := "access", client_id := effectiveClientId, realm_id := payload.realm_id,
              qb_access_token := qbTokens.1, qb_refresh_token := qbTokens.2,
              expires_at := now + TOKEN_EXPIRY_SECONDS * 1000, issued_at := now }
          let refreshPayload : StatelessTokenPayload :=
            { accessPayload with
              type := "refresh",
              expires_at := now + 90 * 24 * 60 * 60 * 1000 }
          .success accessPayload refreshPayload "quickbooks:accounting"

/-- POST /token (lines 423-686): grant dispatch.  In the source the client
validation block and the authorization_code branch are guarded by the same
grant_type test; they are merged here. -/
def tokenEndpoint (clients : Store OAuthClientRegistration)
    (codes : Store AuthorizationCode) (sha256b64 : String → String)
    (dec : String → Option StatelessTokenPayload)
    (qbRefresh : String → Option (String × String)) (now : Nat) (req : TokenRequest) :
    Store AuthorizationCode × TokenResult :=
  if req.grant_type = some "authorization_code" then
    match clientAuth clients req with
    | .error e => (codes, e)
    | .ok cid => authCodeGrant codes sha256b64 now req cid
  else if req.grant_type = some "refresh_token" then
    (codes, refreshGrant dec qbRefresh now req)
  else
    (codes, .error 400 "unsupported_grant_type"
      "Only authorization_code and refresh_token grants are supported")

/-- validateAccessToken (lines 695-731): stateless decryption first, then
the legacy in-memory map as fallback.  Returns the credentials (or none)
together with the possibly-updated legacy store. -/
def validateAccessToken (dec : String → Option StatelessTokenPayload)
    (accessTokens : Store TokenData) (now : Nat) (token : String) :
    Option TokenData × Store TokenData :=
  match dec token with
  | some payload =>
    if payload.type ≠ "access" then (none, accessTokens)
    else if now > payload.expires_at then (none, accessTokens)
    else
      (some { client_id := payload.client_id, access_token := token, refresh_token := none,
              expires_at := payload.expires_at, realm_id := some payload.realm_id,
              qb_access_token := some payload.qb_access_token,
              qb_refresh_token := some payload.qb_refresh_token }, accessTokens)
  | none =>
    match accessTokens.get token with
    | none => (none, accessTokens)
    | some tokenData =>
      if now > tokenData.expires_at then (none, accessTokens.erase token)
      else (some tokenData, accessTokens)

/-! ## Authorization endpoint (GET /authorize, lines 276-352) -/

structure AuthorizeRequest where
  response_type : Option String
  client_id : Option String
  redirect_uri : Option String
  state : Option String
  code_challenge : Option String
  code_challenge_method : Option String
  scope : Option String
  deriving DecidableEq, Repr

/-- Outcome of GET /authorize: a JSON error, a redirect back to the client
redirect_uri carrying query parameters, or a redirect to the upstream
QuickBooks authorize URL (of which the model keeps the upstream-facing
state parameter). -/
inductive AuthorizeResult where
  | errorJson (status : Nat) (err desc : String)
  | redirectClient (uri : String) (params : List (String × String))
  | redirectUpstream (upstreamState : String)
  deriving DecidableEq, Repr

/-- The conditional `if (state) url.searchParams.set("state", state)`. -/
def stateParam : Option String → List (String × String)
  | some s => if s = "" then [] else [("state", s)]
  | none => []

/-- GET /authorize.  internalState models the fresh generateSecureToken(16)
output of this invocation. -/
def authorizeEndpoint (clients : Store OAuthClientRegistration)
    (pending : Store PendingAuthorization) (internalState : String)
    (req : AuthorizeRequest) : Store PendingAuthorization × AuthorizeResult :=
  if req.response_type ≠ some "code" then
    (pending, .errorJson 400 "unsupported_response_type"
      "Only \x27code\x27 response type is supported")
  else if ¬ truthy req.client_id then
    (pending, .errorJson 400 "invalid_request" "client_id is required")
  else
    match req.client_id with
    | none => (pending, .errorJson 400 "invalid_request" "client_id is required")
    | some cid =>
      match clients.get cid with
      | none => (pending, .errorJson 400 "invalid_client" "Unknown client_id")
      | some client =>
        match req.redirect_uri with
        | none => (pending, .errorJson 400 "invalid_redirect_uri"
            "redirect_uri does not match registered URIs")
        | some ru =>
          if ru = "" ∨ ru ∉ client.redirect_uris then
            (pending, .errorJson 400 "invalid_redirect_uri"
              "redirect_uri does not match registered URIs")
          else if ¬ truthy req.code_challenge then
            (pending, .redirectClient ru
              ([("error", "invalid_request"),
                ("error_description", "code_challenge is required (PKCE)")] ++
               stateParam req.state))
          else
            (pending.set internalState
              { client_id := cid, redirect_uri := ru, state := req.state,
                code_challenge := req.code_challenge,
                code_challenge_method := some (req.code_challenge_method.getD "S256"),
                scope := req.scope },
             .redirectUpstream internalState)

/-! ## Callback endpoint (GET /callback, lines 358-417) -/

structure CallbackRequest where
  code : Option String
  state : Option String
  realmId : Option String
  error : Option String
  error_description : Option String
  deriving DecidableEq, Repr

/-- Shape of the token object delivered by the upstream createToken call. -/
structure QBTokenResponse where
  access_token : String
  refresh_token : String
  realmId : String
  deriving DecidableEq, Repr

/-- Outcome of GET /callback: the terminal 400 "Invalid or expired
authorization state" page, or a redirect to the client redirect_uri. -/
inductive CallbackResult where
  | invalidState
  | redirect (uri : String) (params : List (String × String))
  deriving DecidableEq, Repr

/-- GET /callback.  freshCode models the generateSecureToken(32) output for
the minted authorization code; exchange models the upstream createToken
call of this request (none = it threw). -/
def callbackEndpoint (pending : Store PendingAuthorization)
    (codes : Store AuthorizationCode) (freshCode : String)
    (exchange : Option QBTokenResponse) (now : Nat) (req : CallbackRequest) :
    Store PendingAuthorization × Store AuthorizationCode × CallbackResult :=
  match req.state with
  | none => (pending, codes, .invalidState)
  | some internalState =>
    match pending.get internalState with
    | none => (pending, codes, .invalidState)
    | some pa =>
      let pending' := pending.erase internalState
      if truthy req.error then
        (pending', codes, .redirect pa.redirect_uri
          ([("error", req.error.getD "")] ++
           (match req.error_description with
            | some d => if d = "" then [] else [("error_description", d)]
            | none => []) ++
           stateParam pa.state))
      else
        match exchange with
        | some qbTokens =>
          let authCodeData : AuthorizationCode :=
            { code := freshCode, client_id := pa.client_id,
              redirect_uri := pa.redirect_uri, code_challenge := pa.code_challenge,
              code_challenge_method := pa.code_challenge_method, scope := pa.scope,
              expires_at := now + AUTH_CODE_EXPIRY_SECONDS * 1000,
              realm_id :=
                (match req.realmId with
                 | some r => if r = "" then qbTokens.realmId else r
                 | none => qbTokens.realmId),
              qb_access_token := qbTokens.access_token,
              qb_refresh_token := qbTokens.refresh_token }
          (pending', codes.set freshCode authCodeData,
           .redirect pa.redirect_uri ([("code", freshCode)] ++ stateParam pa.state))
        | none =>
          (pending', codes, .redirect pa.redirect_uri
            ([("error", "server_error"),
              ("error_description", "Failed to complete QuickBooks authorization")] ++
             stateParam pa.state))

/-! ## Registration endpoint (POST /register, lines 201-270) -/

structure RegisterRequest where
  client_name : Option String
  redirect_uris : Option (List String)
  grant_types : Option (List String)
  response_types : Option (List String)
  token_endpoint_auth_method : Option String
  deriving DecidableEq, Repr

/-- The protocol and hostname of a parsed URL, the two components the
registration endpoint inspects. -/
structure URLParts where
  protocol : String
  hostname : String
  deriving DecidableEq, Repr

/-- Splits a character sequence at the first "://" occurrence. -/
def breakOnScheme : List Char → Option (List Char × List Char)
  | [] => none
  | ':' :: '/' :: '/' :: rest => some ([], rest)
  | c :: rest =>
    match breakOnScheme rest with
    | none => none
    | some (pre, post) => some (c :: pre, post)

/-- Model of the WHATWG URL constructor, restricted to the two components
used: for scheme://host[:port]/rest the protocol is "scheme:" and the
hostname is host; anything without a nonempty scheme and host fails. -/
def parseURL (uri : String) : Option URLParts :=
  match breakOnScheme uri.data with
  | none => none
  | some (scheme, rest) =>
    if scheme = [] then none
    else
      let hostname := (rest.takeWhile (fun c => c ≠ '/')).takeWhile (fun c => c ≠ ':')
      if hostname = [] then none
      else some { protocol := String.mk scheme ++ ":", hostname := String.mk hostname }

inductive RegisterResult where
  | created (client_id : String) (client_secret : Option String) (client_name : String)
      (redirect_uris grant_types response_types : List String)
      (token_endpoint_auth_method : String) (client_id_issued_at : Nat)
  | rejected (status : Nat) (err desc : String)
  deriving DecidableEq, Repr

/-- The redirect-URI validation loop (lines 220-239): the first URI that
fails to parse or is neither loopback nor HTTPS produces the 400. -/
def checkRedirectUris : List String → Option RegisterResult
  | [] => none
  | uri :: rest =>
    match parseURL uri with
    | none => some (.rejected 400 "invalid_redirect_uri" ("Invalid redirect URI: " ++ uri))
    | some url =>
      if ¬ (url.hostname = "localhost" ∨ url.hostname = "127.0.0.1") ∧
          ¬ (url.protocol = "https:") then
        some (.rejected 400 "invalid_redirect_uri"
          "Redirect URIs must be localhost URLs or HTTPS URLs")
      else checkRedirectUris rest

/-- POST /register.  freshClientId models the uuidv4() output, freshSecret
the generateSecureToken(32) output, now is Date.now(). -/
def registerEndpoint (clients : Store OAuthClientRegistration)
    (freshClientId freshSecret : String) (now : Nat) (req : RegisterRequest) :
    Store OAuthClientRegistration × RegisterResult :=
  match req.redirect_uris with
  | none => (clients, .rejected 400 "invalid_client_metadata"
      "redirect_uris is required and must be a non-empty array")
  | some uris =>
    if uris.length = 0 then
      (clients, .rejected 400 "invalid_client_metadata"
        "redirect_uris is required and must be a non-empty array")
    else
      match checkRedirectUris uris with
      | some r => (clients, r)
      | none =>
        let grant_types := req.grant_types.getD ["authorization_code", "refresh_token"]
        let response_types := req.response_types.getD ["code"]
        let method := req.token_endpoint_auth_method.getD "none"
        let secret : Option String := if method ≠ "none" then some freshSecret else none
        let name :=
          match req.client_name with
          | some n => if n = "" then "MCP Client " ++ String.mk (freshClientId.data.take 8) else n
          | none => "MCP Client " ++ String.mk (freshClientId.data.take 8)
        let registration : OAuthClientRegistration :=
          { client_id := freshClientId, client_secret := secret, client_name := name,
            redirect_uris := uris, grant_types := grant_types,
            response_types := response_types, token_endpoint_auth_method := method,
            created_at := now }
        (clients.set freshClientId registration,
         .created freshClientId secret name uris grant_types response_types method
           (now / 1000))

/-! ## Token codec (encryptTokenPayload / decryptTokenPayload, lines 27-86)

Bytes are modelled as Nat; the base64url coat is a bijective transport
encoding and the token is modelled as the underlying byte sequence
iv ++ authTag ++ ciphertext.  The aes-256-gcm cipher of node crypto is an
external collaborator and enters as an AEAD parameter; the properties an
ideal authenticated cipher provides are explicit hypotheses of the
round-trip theorem.  JSON.stringify / JSON.parse of the payload likewise
enter as a serialization parameter with a left-inverse hypothesis. -/

/-- External authenticated cipher: enc key iv plaintext = (ciphertext, tag);
dec key iv tag ciphertext recovers the plaintext or fails. -/
structure AEAD where
  enc : List Nat → List Nat → List Nat → List Nat × List Nat
  dec : List Nat → List Nat → List Nat → List Nat → Option (List Nat)

/-- Decryption inverts encryption under the same key and iv. -/
def AEAD.correct (A : AEAD) : Prop :=
  ∀ k iv pt, A.dec k iv (A.enc k iv pt).2 (A.enc k iv pt).1 = some pt

/-- getAuthTag of aes-256-gcm yields 16 bytes. -/
def AEAD.tagLen16 (A : AEAD) : Prop :=
  ∀ k iv pt, (A.enc k iv pt).2.length = 16

/-- Authenticity: decryption succeeds only on genuine encryptions made with
the same key and iv. -/
def AEAD.auth (A : AEAD) : Prop :=
  ∀ k iv tag ct pt, A.dec k iv tag ct = some pt → A.enc k iv pt = (ct, tag)

/-- A ciphertext/tag produced under one key never decrypts under another. -/
def AEAD.keySep (A : AEAD) : Prop :=
  ∀ k k' iv pt, k ≠ k' →
    A.dec k' iv (A.enc k iv pt).2 (A.enc k iv pt).1 = none

/-- The (ciphertext, tag) pair commits to the iv. -/
def AEAD.nonceBinding (A : AEAD) : Prop :=
  ∀ k iv iv' pt pt', A.enc k iv pt = A.enc k iv' pt' → iv = iv'

/-- Under a fixed key and iv the ciphertext determines the plaintext. -/
def AEAD.ctInj (A : AEAD) : Prop :=
  ∀ k iv pt pt', (A.enc k iv pt).1 = (A.enc k iv pt').1 → pt = pt'

/-- Under a fixed key and iv the tag determines the plaintext. -/
def AEAD.tagInj (A : AEAD) : Prop :=
  ∀ k iv pt pt', (A.enc k iv pt).2 = (A.enc k iv pt').2 → pt = pt'

/-- External payload serialization (JSON.stringify to utf8 bytes) and its
parser. -/
structure PayloadCodec where
  ser : StatelessTokenPayload → List Nat
  deser : List Nat → Option StatelessTokenPayload

def PayloadCodec.leftInv (C : PayloadCodec) : Prop :=
  ∀ p, C.deser (C.ser p) = some p

/-- encryptTokenPayload (lines 51-62): combined = iv + authTag + encrypted. -/
def encryptTokenPayload (A : AEAD) (C : PayloadCodec) (key iv : List Nat)
    (payload : StatelessTokenPayload) : List Nat :=
  let plaintext := C.ser payload
  let r := A.enc key iv plaintext
  iv ++ r.2 ++ r.1

/-- decryptTokenPayload (lines 67-86): length check, split into
iv/authTag/encrypted, authenticated decryption, JSON parse; every failure
collapses to none. -/
def decryptTokenPayload (A : AEAD) (C : PayloadCodec) (key : List Nat)
    (token : List Nat) : Option StatelessTokenPayload :=
  if token.length < 32 then none
  else
    let iv := token.take 16
    let authTag := (token.drop 16).take 16
    let encrypted := token.drop 32
    match A.dec key iv authTag encrypted with
    | none => none
    | some pt => C.deser pt

/-! ## Concrete instances of the external parameters

Executable stand-ins used by the witness theorems: an injective pairing
based cipher satisfying the ideal-AEAD properties, and a payload
serialization with a computable parser. -/

def encodeList : List Nat → Nat
  | [] => 0
  | a :: t => Nat.pair a (encodeList t) + 1

def decodeListF : Nat → Nat → List Nat
  | 0, _ => []
  | _ + 1, 0 => []
  | f + 1, m + 1 => (Nat.unpair m).1 :: decodeListF f (Nat.unpair m).2

def decodeList (n : Nat) : List Nat := decodeListF n n

def stringCode (s : String) : Nat := encodeList (s.data.map Char.toNat)

def stringDecode (n : Nat) : String := String.mk ((decodeList n).map Char.ofNat)

def payloadCode (p : StatelessTokenPayload) : Nat :=
  Nat.pair (stringCode p.type) (Nat.pair (stringCode p.client_id)
    (Nat.pair (stringCode p.realm_id) (Nat.pair (stringCode p.qb_access_token)
      (Nat.pair (stringCode p.qb_refresh_token) (Nat.pair p.expires_at p.issued_at)))))

def payloadDecode (n : Nat) : StatelessTokenPayload :=
  let t := Nat.unpair n
  let r1 := Nat.unpair t.2
  let r2 := Nat.unpair r1.2
  let r3 := Nat.unpair r2.2
  let r4 := Nat.unpair r3.2
  let r5 := Nat.unpair r4.2
  { type := stringDecode t.1, client_id := stringDecode r1.1,
    realm_id := stringDecode r2.1, qb_access_token := stringDecode r3.1,
    qb_refresh_token := stringDecode r4.1, expires_at := r5.1, issued_at := r5.2 }

def toyPayloadCodec : PayloadCodec where
  ser p := [payloadCode p]
  deser l := match l with | [n] => some (payloadDecode n) | _ => none

def mkTag (k iv ct : List Nat) : List Nat :=
  Nat.pair (encodeList k) (Nat.pair (encodeList iv) (encodeList ct)) :: List.replicate 15 0

def toyAEAD : AEAD where
  enc k iv pt := (pt, mkTag k iv pt)
  dec k iv tag ct := if tag = mkTag k iv ct then some ct else none

def samplePayload : StatelessTokenPayload :=
  { type := "access", client_id := "c1", realm_id := "r1",
    qb_access_token := "qa", qb_refresh_token := "qr",
    expires_at := 5000, issued_at := 1000 }

/-- The PKCE gate of the authorization_code grant lets a request through
when the stored challenge is falsy, or when a truthy verifier is supplied
that verifyCodeChallenge accepts. -/
def pkcePasses (sha256b64 : String → String) (req : TokenRequest)
    (ac : AuthorizationCode) : Prop :=
  match ac.code_challenge with
  | none => True
  | some ch =>
    ch = "" ∨ ∃ v, req.code_verifier = some v ∧ v ≠ "" ∧
      verifyCodeChallenge sha256b64 v ch (ac.code_challenge_method.getD "S256") = true

/-! ## Concrete fixtures used by the witness and counterexample theorems -/

def toySha : String → String := fun s => "H" ++ s

def noDec : String → Option StatelessTokenPayload := fun _ => none

def noQbRefresh : String → Option (String × String) := fun _ => none

def sampleClient : OAuthClientRegistration :=
  { client_id := "client1", client_secret := none, client_name := "MCP Client client1",
    redirect_uris := ["https://app.example.com/cb"],
    grant_types := ["authorization_code", "refresh_token"], response_types := ["code"],
    token_endpoint_auth_method := "none", created_at := 0 }

def sampleClients : Store OAuthClientRegistration := [("client1", sampleClient)]

def sampleAuthCode : AuthorizationCode :=
  { code := "codeA", client_id := "client1",
    redirect_uri := "https://app.example.com/cb",
    code_challenge := some "Hv1", code_challenge_method := some "S256", scope := none,
    expires_at := 10000, realm_id := "realm1", qb_access_token := "qa",
    qb_refresh_token := "qr" }

def sampleAuthCodePlain : AuthorizationCode :=
  { sampleAuthCode with
    code := "codeP",
    code_challenge := some "v1",
    code_challenge_method := some "plain" }

def sampleCodes : Store AuthorizationCode :=
  [("codeA", sampleAuthCode), ("codeP", sampleAuthCodePlain)]

def sampleReqWith (c v : String) : TokenRequest :=
  { grant_type := some "authorization_code", code := some c,
    redirect_uri := some "https://app.example.com/cb", code_verifier := some v,
    refresh_token := none, client_id := some "client1", client_secret := none }

def sampleTokenRequest : TokenRequest := sampleReqWith "codeA" "v1"

def accessPayloadSample : StatelessTokenPayload :=
  { type := "access", client_id := "client1", realm_id := "realm1",
    qb_access_token := "qa", qb_refresh_token := "qr", expires_at := 1000,
    issued_at := 0 }

def refreshPayloadSample : StatelessTokenPayload :=
  { accessPayloadSample with type := "refresh" }

def bananaPayloadSample : StatelessTokenPayload :=
  { accessPayloadSample with type := "banana" }

def decOf (p : StatelessTokenPayload) : String → Option StatelessTokenPayload :=
  fun s => if s = "tok" then some p else none

def sampleRefreshRequest : TokenRequest :=
  { grant_type := some "refresh_token", code := none, redirect_uri := none,
    code_verifier := none, refresh_token := some "tok", client_id := none,
    client_secret := none }

/-- A redirect URI the registration policy accepts: parses, and is
loopback or HTTPS. -/
def uriAllowed (uri : String) : Bool :=
  match parseURL uri with
  | none => false
  | some u => u.hostname = "localhost" || u.hostname = "127.0.0.1" || u.protocol = "https:"

def regReq (uris : List String) : RegisterRequest :=
  { client_name := none, redirect_uris := some uris, grant_types := none,
    response_types := none, token_endpoint_auth_method := none }

def samplePending : PendingAuthorization :=
  { client_id := "client1", redirect_uri := "https://app.example.com/cb",
    state := some "cs", code_challenge := some "Hv1",
    code_challenge_method := some "S256", scope := none }

def sampleQBTokens : QBTokenResponse :=
  { access_token := "qa", refresh_token := "qr", realmId := "realm1" }

def sampleCallbackRequest : CallbackRequest :=
  { code := some "qbcode", state := some "st1", realmId := some "realm1",
    error := none, error_description := none }

def sampleAuthorizeReq (st : String) : AuthorizeRequest :=
  { response_type := some "code", client_id := some "client1",
    redirect_uri := some "https://app.example.com/cb", state := some st,
    code_challenge := some "Hv1", code_challenge_method := some "S256", scope := none }

/-! ## Theorems -/

theorem Store.get_erase_self {α : Type} (s : Store α) (k : String) :
    (s.erase k).get k = none := by
  induction s with
  | nil => rfl
  | cons p t ih =>
    obtain ⟨k₁, v₁⟩ := p
    by_cases h : k₁ = k <;> simp [Store.erase, Store.get, h, ih]

theorem Store.get_erase_ne {α : Type} (s : Store α) {k k' : String} (h : k' ≠ k) :
    (s.erase k).get k' = s.get k' := by
  induction s with
  | nil => rfl
  | cons p t ih =>
    obtain ⟨k₁, v₁⟩ := p
    by_cases h₁ : k₁ = k
    · subst h₁
      simp [Store.erase, Store.get, Ne.symm h, ih]
    · simp only [Store.erase, if_neg h₁, Store.get]
      by_cases h₂ : k₁ = k' <;> simp [h₂, ih]

theorem Store.get_set_self {α : Type} (s : Store α) (k : String) (v : α) :
    (s.set k v).get k = some v := by
  simp [Store.set, Store.get]

theorem Store.get_set_ne {α : Type} (s : Store α) {k k' : String} (v : α) (h : k' ≠ k) :
    (s.set k v).get k' = s.get k' := by
  simp only [Store.set, Store.get, if_neg (fun hh : k = k' => h hh.symm)]
  exact Store.get_erase_ne s h

/-! ## Supporting lemmas for the token codec -/

theorem encryptTokenPayload_eq (A : AEAD) (C : PayloadCodec) (key iv : List Nat)
    (p : StatelessTokenPayload) :
    encryptTokenPayload A C key iv p =
      iv ++ (A.enc key iv (C.ser p)).2 ++ (A.enc key iv (C.ser p)).1 := rfl

theorem decryptTokenPayload_concat (A : AEAD) (C : PayloadCodec) (key iv tag ct : List Nat)
    (hiv : iv.length = 16) (htag : tag.length = 16) :
    decryptTokenPayload A C key (iv ++ tag ++ ct) =
      match A.dec key iv tag ct with
      | none => none
      | some pt => C.deser pt := by
  have h1 : (iv ++ tag ++ ct).take 16 = iv := by
    rw [List.append_assoc]; exact List.take_left' hiv
  have h2 : ((iv ++ tag ++ ct).drop 16).take 16 = tag := by
    rw [List.append_assoc, List.drop_left' hiv]; exact List.take_left' htag
  have h3 : (iv ++ tag ++ ct).drop 32 = ct :=
    List.drop_left' (by rw [List.length_append, hiv, htag])
  have h4 : ¬ ((iv ++ tag ++ ct).length < 32) := by
    rw [List.length_append, List.length_append, hiv, htag]; omega
  simp only [decryptTokenPayload, h1, h2, h3, if_neg h4]

theorem set_ne_of_getElemq_ne (l : List Nat) (i b : Nat) (hi : i < l.length)
    (hb : l[i]? ≠ some b) : l.set i b ≠ l := by
  intro he
  apply hb
  nth_rewrite 1 [← he]
  exact List.getElem?_set_self hi

/-! ## Properties of the concrete instances -/

theorem encodeList_inj : ∀ {l l' : List Nat}, encodeList l = encodeList l' → l = l' := by
  intro l
  induction l with
  | nil =>
    intro l' h
    cases l' with
    | nil => rfl
    | cons b u => simp [encodeList] at h
  | cons a t ih =>
    intro l' h
    cases l' with
    | nil => simp [encodeList] at h
    | cons b u =>
      simp only [encodeList, Nat.add_right_cancel_iff] at h
      obtain ⟨h1, h2⟩ := Nat.pair_eq_pair.mp h
      rw [h1, ih h2]

theorem decodeListF_encodeList :
    ∀ (l : List Nat) (f : Nat), encodeList l ≤ f → decodeListF f (encodeList l) = l := by
  intro l
  induction l with
  | nil =>
    intro f _
    cases f <;> rfl
  | cons a t ih =>
    intro f hf
    cases f with
    | zero => simp [encodeList] at hf
    | succ f =>
      have hle : encodeList t ≤ f := by
        have h1 : Nat.pair a (encodeList t) ≤ f := by
          simpa [encodeList] using hf
        exact le_trans (Nat.right_le_pair a (encodeList t)) h1
      simp only [encodeList, decodeListF, Nat.unpair_pair]
      rw [ih f hle]

theorem decodeList_encodeList (l : List Nat) : decodeList (encodeList l) = l :=
  decodeListF_encodeList l _ le_rfl

theorem stringMkData (s : String) : String.mk s.data = s := by
  cases s
  rfl

theorem stringDecode_stringCode (s : String) : stringDecode (stringCode s) = s := by
  unfold stringDecode stringCode
  rw [decodeList_encodeList, List.map_map]
  have h : (Char.ofNat ∘ Char.toNat) = id := funext Char.ofNat_toNat
  rw [h, List.map_id]

theorem toyPayloadCodec_leftInv : toyPayloadCodec.leftInv := by
  intro p
  simp only [toyPayloadCodec, PayloadCodec.leftInv, payloadCode, payloadDecode,
    Nat.unpair_pair, stringDecode_stringCode]

theorem mkTag_inj {k k' iv iv' ct ct' : List Nat}
    (h : mkTag k iv ct = mkTag k' iv' ct') : k = k' ∧ iv = iv' ∧ ct = ct' := by
  simp only [mkTag, List.cons.injEq] at h
  obtain ⟨h1, -⟩ := h
  obtain ⟨hk, h2⟩ := Nat.pair_eq_pair.mp h1
  obtain ⟨hiv, hct⟩ := Nat.pair_eq_pair.mp h2
  exact ⟨encodeList_inj hk, encodeList_inj hiv, encodeList_inj hct⟩

theorem toyAEAD_correct : toyAEAD.correct := by
  intro k iv pt
  simp [toyAEAD, AEAD.correct]

theorem toyAEAD_tagLen16 : toyAEAD.tagLen16 := by
  intro k iv pt
  simp [toyAEAD, mkTag]

theorem toyAEAD_auth : toyAEAD.auth := by
  intro k iv tag ct pt h
  simp only [toyAEAD] at h ⊢
  by_cases ht : tag = mkTag k iv ct
  · rw [if_pos ht] at h
    obtain rfl : ct = pt := Option.some.inj h
    rw [ht]
  · rw [if_neg ht] at h
    exact absurd h (by simp)

theorem toyAEAD_keySep : toyAEAD.keySep := by
  intro k k' iv pt hk
  simp only [toyAEAD, AEAD.keySep]
  rw [if_neg]
  intro h
  exact hk (mkTag_inj h).1

theorem toyAEAD_nonceBinding : toyAEAD.nonceBinding := by
  intro k iv iv' pt pt' h
  simp only [toyAEAD, Prod.mk.injEq] at h
  exact (mkTag_inj h.2).2.1

theorem toyAEAD_ctInj : toyAEAD.ctInj := by
  intro k iv pt pt' h
  simpa [toyAEAD] using h

theorem toyAEAD_tagInj : toyAEAD.tagInj := by
  intro k iv pt pt' h
  simp only [toyAEAD] at h
  exact (mkTag_inj h).2.2

/-! ## Claim theorems -/

/-- C3: Token codec round-trip.  For every payload P, decrypting the
encryption of P under the same key yields exactly P; decrypting under a
different key, or after changing any single byte of the encoded token,
always fails and never returns a payload.  The aes-256-gcm cipher and the
JSON serialization are external collaborators; the properties an ideal
authenticated cipher provides are hypotheses, instantiated by the witness. -/
theorem c3_token_codec_roundtrip
    (A : AEAD) (C : PayloadCodec) (key iv : List Nat) (p : StatelessTokenPayload)
    (hA1 : A.correct) (hA2 : A.tagLen16) (hA3 : A.auth) (hA4 : A.keySep)
    (hA5 : A.nonceBinding) (hA6 : A.ctInj) (hA7 : A.tagInj)
    (hC : C.leftInv) (hiv : iv.length = 16) :
    decryptTokenPayload A C key (encryptTokenPayload A C key iv p) = some p ∧
    (∀ key', key ≠ key' →
      decryptTokenPayload A C key' (encryptTokenPayload A C key iv p) = none) ∧
    (∀ i b, i < (encryptTokenPayload A C key iv p).length →
      (encryptTokenPayload A C key iv p)[i]? ≠ some b →
      decryptTokenPayload A C key ((encryptTokenPayload A C key iv p).set i b) = none) := by
  rcases hct : A.enc key iv (C.ser p) with ⟨ct, tag⟩
  have hE : encryptTokenPayload A C key iv p = iv ++ tag ++ ct := by
    rw [encryptTokenPayload_eq, hct]
  have htag : tag.length = 16 := by
    have h := hA2 key iv (C.ser p)
    rw [hct] at h
    exact h
  refine ⟨?_, ?_, ?_⟩
  · rw [hE, decryptTokenPayload_concat A C key iv tag ct hiv htag]
    have hdec : A.dec key iv tag ct = some (C.ser p) := by
      have h := hA1 key iv (C.ser p)
      rw [hct] at h
      exact h
    rw [hdec]
    exact hC p
  · intro key' hk
    rw [hE, decryptTokenPayload_concat A C key' iv tag ct hiv htag]
    have hdec : A.dec key' iv tag ct = none := by
      have h := hA4 key key' iv (C.ser p) hk
      rw [hct] at h
      exact h
    rw [hdec]
  · intro i b hi hb
    rw [hE] at hi hb ⊢
    have hlen : (iv ++ tag ++ ct).length = 32 + ct.length := by
      rw [List.length_append, List.length_append, hiv, htag]
    have hl12 : (iv ++ tag).length = 32 := by
      rw [List.length_append, hiv, htag]
    by_cases h1 : i < 16
    · -- flip inside the iv region
      have e1 : (iv ++ tag ++ ct).set i b = iv.set i b ++ tag ++ ct := by
        rw [List.set_append, if_pos (by omega : i < (iv ++ tag).length),
          List.set_append, if_pos (by omega : i < iv.length)]
      have hgi : (iv ++ tag ++ ct)[i]? = iv[i]? := by
        rw [List.getElem?_append_left (by omega : i < (iv ++ tag).length),
          List.getElem?_append_left (by omega : i < iv.length)]
      have hne : iv.set i b ≠ iv :=
        set_ne_of_getElemq_ne iv i b (by omega) (by rw [← hgi]; exact hb)
      rw [e1, decryptTokenPayload_concat A C key (iv.set i b) tag ct
        (by rw [List.length_set]; exact hiv) htag]
      rcases hdec : A.dec key (iv.set i b) tag ct with _ | pt
      · rfl
      · exfalso
        have hgen := hA3 key (iv.set i b) tag ct pt hdec
        exact hne (hA5 key (iv.set i b) iv pt (C.ser p) (hgen.trans hct.symm))
    · by_cases h2 : i < 32
      · -- flip inside the authTag region
        have e1 : (iv ++ tag ++ ct).set i b = iv ++ tag.set (i - 16) b ++ ct := by
          rw [List.set_append, if_pos (by omega : i < (iv ++ tag).length),
            List.set_append, if_neg (by omega : ¬ i < iv.length), hiv]
        have hgi : (iv ++ tag ++ ct)[i]? = tag[i - 16]? := by
          rw [List.getElem?_append_left (by omega : i < (iv ++ tag).length),
            List.getElem?_append_right (by omega : iv.length ≤ i), hiv]
        have hne : tag.set (i - 16) b ≠ tag :=
          set_ne_of_getElemq_ne tag (i - 16) b (by omega) (by rw [← hgi]; exact hb)
        rw [e1, decryptTokenPayload_concat A C key iv (tag.set (i - 16) b) ct hiv
          (by rw [List.length_set]; exact htag)]
        rcases hdec : A.dec key iv (tag.set (i - 16) b) ct with _ | pt
        · rfl
        · exfalso
          have hgen := hA3 key iv (tag.set (i - 16) b) ct pt hdec
          have hct1 : (A.enc key iv pt).1 = (A.enc key iv (C.ser p)).1 := by
            rw [hgen, hct]
          have hpt : pt = C.ser p := hA6 key iv pt (C.ser p) hct1
          rw [hpt, hct] at hgen
          exact hne (congrArg Prod.snd hgen).symm
      · -- flip inside the ciphertext region
        have e1 : (iv ++ tag ++ ct).set i b = iv ++ tag ++ ct.set (i - 32) b := by
          rw [List.set_append, if_neg (by omega : ¬ i < (iv ++ tag).length), hl12]
        have hgi : (iv ++ tag ++ ct)[i]? = ct[i - 32]? := by
          rw [List.getElem?_append_right (by omega : (iv ++ tag).length ≤ i), hl12]
        have hne : ct.set (i - 32) b ≠ ct := by
          refine set_ne_of_getElemq_ne ct (i - 32) b ?_ (by rw [← hgi]; exact hb)
          rw [hlen] at hi
          omega
        rw [e1, decryptTokenPayload_concat A C key iv tag (ct.set (i - 32) b) hiv htag]
        rcases hdec : A.dec key iv tag (ct.set (i - 32) b) with _ | pt
        · rfl
        · exfalso
          have hgen := hA3 key iv tag (ct.set (i - 32) b) pt hdec
          have hct2 : (A.enc key iv pt).2 = (A.enc key iv (C.ser p)).2 := by
            rw [hgen, hct]
          have hpt : pt = C.ser p := hA7 key iv pt (C.ser p) hct2
          rw [hpt, hct] at hgen
          exact hne (congrArg Prod.fst hgen).symm

theorem c3_token_codec_roundtrip_witness :
    decryptTokenPayload toyAEAD toyPayloadCodec [1]
      (encryptTokenPayload toyAEAD toyPayloadCodec [1] (List.replicate 16 0) samplePayload) =
      some samplePayload ∧
    decryptTokenPayload toyAEAD toyPayloadCodec [2]
      (encryptTokenPayload toyAEAD toyPayloadCodec [1] (List.replicate 16 0) samplePayload) =
      none ∧
    decryptTokenPayload toyAEAD toyPayloadCodec [1]
      ((encryptTokenPayload toyAEAD toyPayloadCodec [1] (List.replicate 16 0)
        samplePayload).set 0 99) = none := by
  have h := c3_token_codec_roundtrip toyAEAD toyPayloadCodec [1] (List.replicate 16 0)
    samplePayload toyAEAD_correct toyAEAD_tagLen16 toyAEAD_auth toyAEAD_keySep
    toyAEAD_nonceBinding toyAEAD_ctInj toyAEAD_tagInj toyPayloadCodec_leftInv (by simp)
  refine ⟨h.1, h.2.1 [2] (by decide), h.2.2 0 99 ?_ ?_⟩
  · simp only [encryptTokenPayload_eq, List.length_append, List.length_replicate]
    omega
  · rw [encryptTokenPayload_eq, List.append_assoc,
      List.getElem?_append_left (by simp : (0 : Nat) < (List.replicate 16 (0 : Nat)).length)]
    simp

/-! ## Characterization lemmas for the token endpoint -/

theorem tokenEndpoint_authCode (clients : Store OAuthClientRegistration)
    (codes : Store AuthorizationCode) (sha256b64 : String → String)
    (dec : String → Option StatelessTokenPayload)
    (qbRefresh : String → Option (String × String)) (now : Nat) (req : TokenRequest)
    (cid : String) (cl : OAuthClientRegistration)
    (hg : req.grant_type = some "authorization_code")
    (hcid : req.client_id = some cid) (hcl : clients.get cid = some cl)
    (hauth : cl.token_endpoint_auth_method = "none" ∨ cl.client_secret = req.client_secret) :
    tokenEndpoint clients codes sha256b64 dec qbRefresh now req =
      authCodeGrant codes sha256b64 now req cid := by
  have hna : ¬ (cl.token_endpoint_auth_method ≠ "none" ∧ cl.client_secret ≠ req.client_secret) := by
    rcases hauth with h | h
    · intro hh
      exact hh.1 h
    · intro hh
      exact hh.2 h
  simp only [tokenEndpoint, clientAuth, hg, hcid, hcl, if_neg hna]
  simp

theorem tokenEndpoint_refresh (clients : Store OAuthClientRegistration)
    (codes : Store AuthorizationCode) (sha256b64 : String → String)
    (dec : String → Option StatelessTokenPayload)
    (qbRefresh : String → Option (String × String)) (now : Nat) (req : TokenRequest)
    (hg : req.grant_type = some "refresh_token") :
    tokenEndpoint clients codes sha256b64 dec qbRefresh now req =
      (codes, refreshGrant dec qbRefresh now req) := by
  simp [tokenEndpoint, hg]

theorem authCodeGrant_not_found (codes : Store AuthorizationCode)
    (sha256b64 : String → String) (now : Nat) (req : TokenRequest) (cid c : String)
    (hc : req.code = some c) (hcne : c ≠ "") (hget : codes.get c = none) :
    authCodeGrant codes sha256b64 now req cid =
      (codes, .error 400 "invalid_grant" "Invalid or expired authorization code") := by
  simp only [authCodeGrant, hc, if_neg hcne, hget]

theorem authCodeGrant_success (codes : Store AuthorizationCode)
    (sha256b64 : String → String) (now : Nat) (req : TokenRequest) (cid c : String)
    (ac : AuthorizationCode)
    (hc : req.code = some c) (hcne : c ≠ "") (hget : codes.get c = some ac)
    (hown : ac.client_id = cid) (hred : req.redirect_uri = some ac.redirect_uri)
    (hpkce : pkcePasses sha256b64 req ac) (hexp : now ≤ ac.expires_at) :
    ∃ a r s, authCodeGrant codes sha256b64 now req cid =
      (codes.erase c, .success a r s) := by
  have hfin : ∃ a r s, finishAuthCodeGrant codes now c ac cid =
      (codes.erase c, .success a r s) := by
    simp only [finishAuthCodeGrant, if_neg (by omega : ¬ now > ac.expires_at)]
    exact ⟨_, _, _, rfl⟩
  simp only [authCodeGrant, hc, if_neg hcne, hget, hown, ne_eq, not_true_eq_false,
    if_false, hred, not_false_eq_true]
  rcases hch : ac.code_challenge with _ | ch
  · simp only [hch]
    exact hfin
  · simp only [hch]
    simp only [pkcePasses, hch] at hpkce
    by_cases hche : ch = ""
    · simp only [if_pos hche]
      exact hfin
    · rcases hpkce with hch0 | ⟨v, hv, hvne, hverify⟩
      · exact absurd hch0 hche
      · simp only [if_neg hche, hv]
        rw [if_neg (by simp [hvne]), if_neg (by simp [hverify])]
        exact hfin

theorem authCodeGrant_expired (codes : Store AuthorizationCode)
    (sha256b64 : String → String) (now : Nat) (req : TokenRequest) (cid c : String)
    (ac : AuthorizationCode)
    (hc : req.code = some c) (hcne : c ≠ "") (hget : codes.get c = some ac)
    (hown : ac.client_id = cid) (hred : req.redirect_uri = some ac.redirect_uri)
    (hpkce : pkcePasses sha256b64 req ac) (hexp : ac.expires_at < now) :
    authCodeGrant codes sha256b64 now req cid =
      (codes.erase c, .error 400 "invalid_grant" "Authorization code has expired") := by
  have hfin : finishAuthCodeGrant codes now c ac cid =
      (codes.erase c, .error 400 "invalid_grant" "Authorization code has expired") := by
    simp only [finishAuthCodeGrant, if_pos (by omega : now > ac.expires_at)]
  simp only [authCodeGrant, hc, if_neg hcne, hget, hown, ne_eq, not_true_eq_false,
    if_false, hred, not_false_eq_true]
  rcases hch : ac.code_challenge with _ | ch
  · simp only [hch]
    exact hfin
  · simp only [hch]
    simp only [pkcePasses, hch] at hpkce
    by_cases hche : ch = ""
    · simp only [if_pos hche]
      exact hfin
    · rcases hpkce with hch0 | ⟨v, hv, hvne, hverify⟩
      · exact absurd hch0 hche
      · simp only [if_neg hche, hv]
        rw [if_neg (by simp [hvne]), if_neg (by simp [hverify])]
        exact hfin

theorem authCodeGrant_store_unchanged (codes : Store AuthorizationCode)
    (sha256b64 : String → String) (now : Nat) (req : TokenRequest) (cid c : String)
    (ac : AuthorizationCode)
    (hc : req.code = some c) (hget : codes.get c = some ac) (hexp : now ≤ ac.expires_at)
    (hfail : (authCodeGrant codes sha256b64 now req cid).2.isSuccess = false) :
    (authCodeGrant codes sha256b64 now req cid).1 = codes := by
  have hfin : finishAuthCodeGrant codes now c ac cid =
      (codes.erase c,
       (finishAuthCodeGrant codes now c ac cid).2) ∧
      ((finishAuthCodeGrant codes now c ac cid).2.isSuccess = true) := by
    constructor
    · simp only [finishAuthCodeGrant, if_neg (by omega : ¬ now > ac.expires_at)]
    · simp only [finishAuthCodeGrant, if_neg (by omega : ¬ now > ac.expires_at),
        TokenResult.isSuccess]
  by_cases h1 : c = ""
  · simp [authCodeGrant, hc, h1]
  · by_cases h2 : ac.client_id = cid
    · by_cases h3 : req.redirect_uri = some ac.redirect_uri
      · rcases hch : ac.code_challenge with _ | ch
        · have he : authCodeGrant codes sha256b64 now req cid =
              finishAuthCodeGrant codes now c ac cid := by
            simp [authCodeGrant, hc, h1, hget, h2, h3, hch]
          rw [he] at hfail
          rw [hfin.2] at hfail
          exact absurd hfail (by simp)
        · by_cases h4 : ch = ""
          · have he : authCodeGrant codes sha256b64 now req cid =
                finishAuthCodeGrant codes now c ac cid := by
              simp [authCodeGrant, hc, h1, hget, h2, h3, hch, h4]
            rw [he] at hfail
            rw [hfin.2] at hfail
            exact absurd hfail (by simp)
          · rcases hv : req.code_verifier with _ | v
            · simp [authCodeGrant, hc, h1, hget, h2, h3, hch, h4, hv]
            · by_cases h5 : v = ""
              · simp [authCodeGrant, hc, h1, hget, h2, h3, hch, h4, hv, h5]
              · by_cases h6 : verifyCodeChallenge sha256b64 v ch
                    (ac.code_challenge_method.getD "S256") = true
                · have he : authCodeGrant codes sha256b64 now req cid =
                      finishAuthCodeGrant codes now c ac cid := by
                    simp [authCodeGrant, hc, h1, hget, h2, h3, hch, h4, hv, h5, h6]
                  rw [he] at hfail
                  rw [hfin.2] at hfail
                  exact absurd hfail (by simp)
                · simp [authCodeGrant, hc, h1, hget, h2, h3, hch, h4, hv, h5, h6]
      · simp [authCodeGrant, hc, h1, hget, h2, h3]
    · simp [authCodeGrant, hc, h1, hget, h2]

theorem refreshGrant_wrong_type (dec : String → Option StatelessTokenPayload)
    (qbRefresh : String → Option (String × String)) (now : Nat) (req : TokenRequest)
    (rt : String) (p : StatelessTokenPayload)
    (hrt : req.refresh_token = some rt) (hrtne : rt ≠ "") (hdec : dec rt = some p)
    (hty : p.type ≠ "refresh") :
    refreshGrant dec qbRefresh now req =
      .error 400 "invalid_grant" "Token is not a refresh token" := by
  simp [refreshGrant, hrt, hrtne, hdec, hty]

theorem refreshGrant_expired (dec : String → Option StatelessTokenPayload)
    (qbRefresh : String → Option (String × String)) (now : Nat) (req : TokenRequest)
    (rt : String) (p : StatelessTokenPayload)
    (hrt : req.refresh_token = some rt) (hrtne : rt ≠ "") (hdec : dec rt = some p)
    (hty : p.type = "refresh") (hexp : p.expires_at < now) :
    refreshGrant dec qbRefresh now req =
      .error 400 "invalid_grant" "Refresh token has expired" := by
  simp [refreshGrant, hrt, hrtne, hdec, hty, hexp]

theorem refreshGrant_ok (dec : String → Option StatelessTokenPayload)
    (qbRefresh : String → Option (String × String)) (now : Nat) (req : TokenRequest)
    (rt : String) (p : StatelessTokenPayload)
    (hrt : req.refresh_token = some rt) (hrtne : rt ≠ "") (hdec : dec rt = some p)
    (hty : p.type = "refresh") (hexp : now ≤ p.expires_at)
    (hcc : truthy req.client_id = false ∨ req.client_id = some p.client_id) :
    ∃ a r, refreshGrant dec qbRefresh now req = .success a r "quickbooks:accounting" := by
  have hnc : ¬ (truthy req.client_id = true ∧ req.client_id ≠ some p.client_id) := by
    rcases hcc with h | h
    · intro hh
      rw [h] at hh
      exact absurd hh.1 (by simp)
    · intro hh
      exact hh.2 h
  simp only [refreshGrant, hrt, if_neg hrtne, hdec, hty, ne_eq, not_true_eq_false,
    if_false, if_neg (by omega : ¬ now > p.expires_at), if_neg hnc]
  exact ⟨_, _, rfl⟩

theorem validateAccessToken_valid (dec : String → Option StatelessTokenPayload)
    (accessTokens : Store TokenData) (now : Nat) (t : String) (p : StatelessTokenPayload)
    (hdec : dec t = some p) (hty : p.type = "access") (hexp : now ≤ p.expires_at) :
    (validateAccessToken dec accessTokens now t).1 =
      some { client_id := p.client_id, access_token := t, refresh_token := none,
             expires_at := p.expires_at, realm_id := some p.realm_id,
             qb_access_token := some p.qb_access_token,
             qb_refresh_token := some p.qb_refresh_token } := by
  simp [validateAccessToken, hdec, hty, Nat.not_lt.mpr hexp]

theorem validateAccessToken_expired (dec : String → Option StatelessTokenPayload)
    (accessTokens : Store TokenData) (now : Nat) (t : String) (p : StatelessTokenPayload)
    (hdec : dec t = some p) (hty : p.type = "access") (hexp : p.expires_at < now) :
    (validateAccessToken dec accessTokens now t).1 = none := by
  simp [validateAccessToken, hdec, hty, hexp]

theorem validateAccessToken_wrong_type (dec : String → Option StatelessTokenPayload)
    (accessTokens : Store TokenData) (now : Nat) (t : String) (p : StatelessTokenPayload)
    (hdec : dec t = some p) (hty : p.type ≠ "access") :
    (validateAccessToken dec accessTokens now t).1 = none := by
  simp [validateAccessToken, hdec, hty]

theorem authCodeGrant_pkce_fail (codes : Store AuthorizationCode)
    (sha256b64 : String → String) (now : Nat) (req : TokenRequest) (cid c ch v : String)
    (ac : AuthorizationCode)
    (hc : req.code = some c) (hcne : c ≠ "") (hget : codes.get c = some ac)
    (hown : ac.client_id = cid) (hred : req.redirect_uri = some ac.redirect_uri)
    (hch : ac.code_challenge = some ch) (hchne : ch ≠ "")
    (hv : req.code_verifier = some v) (hvne : v ≠ "")
    (hverify : verifyCodeChallenge sha256b64 v ch
      (ac.code_challenge_method.getD "S256") = false) :
    authCodeGrant codes sha256b64 now req cid =
      (codes, .error 400 "invalid_grant" "Invalid code_verifier") := by
  simp only [authCodeGrant, hc, if_neg hcne, hget, hown, ne_eq, not_true_eq_false,
    if_false, hred, not_false_eq_true]
  simp only [hch, if_neg hchne, hv]
  rw [if_neg (by simp [hvne]), if_pos (by simp [hverify])]

/-- C1 (counterexample): the claim quantifies over every verifier v' whose
digest differs from the stored challenge and asserts the failure is
invalid_grant; for the empty verifier (falsy in JS) the endpoint instead
fails with invalid_request "code_verifier is required". -/
theorem c1_counterexample :
    toySha "" ≠ "Hv1" ∧ sampleAuthCode.code_challenge = some "Hv1" ∧
    tokenEndpoint sampleClients sampleCodes toySha noDec noQbRefresh 500
      (sampleReqWith "codeA" "") =
      (sampleCodes, .error 400 "invalid_request" "code_verifier is required") ∧
    "invalid_request" ≠ "invalid_grant" := by
  refine ⟨by decide, rfl, ?_, by decide⟩
  rfl

/-- C1 (amended): PKCE verification at the token endpoint, for nonempty
verifiers.  With the stored challenge truthy and all earlier checks
passing: under a non-plain method ("S256"), a verifier whose
sha256/base64url digest equals the stored challenge passes (redemption
succeeds), and any nonempty verifier with a differing digest fails with
invalid_grant; under "plain" the same holds with byte-for-byte equality in
place of the digest. -/
theorem c1_pkce_verification
    (clients : Store OAuthClientRegistration) (codes : Store AuthorizationCode)
    (sha256b64 : String → String) (dec : String → Option StatelessTokenPayload)
    (qbRefresh : String → Option (String × String)) (now : Nat) (req : TokenRequest)
    (cid : String) (cl : OAuthClientRegistration) (c ch v : String)
    (ac : AuthorizationCode)
    (hg : req.grant_type = some "authorization_code")
    (hcid : req.client_id = some cid) (hcl : clients.get cid = some cl)
    (hauth : cl.token_endpoint_auth_method = "none" ∨ cl.client_secret = req.client_secret)
    (hc : req.code = some c) (hcne : c ≠ "") (hget : codes.get c = some ac)
    (hown : ac.client_id = cid) (hred : req.redirect_uri = some ac.redirect_uri)
    (hexp : now ≤ ac.expires_at)
    (hch : ac.code_challenge = some ch) (hchne : ch ≠ "")
    (hv : req.code_verifier = some v) (hvne : v ≠ "") :
    (ac.code_challenge_method.getD "S256" ≠ "plain" →
      ((sha256b64 v = ch →
        (tokenEndpoint clients codes sha256b64 dec qbRefresh now req).2.isSuccess = true) ∧
       (sha256b64 v ≠ ch →
        tokenEndpoint clients codes sha256b64 dec qbRefresh now req =
          (codes, .error 400 "invalid_grant" "Invalid code_verifier")))) ∧
    (ac.code_challenge_method.getD "S256" = "plain" →
      ((v = ch →
        (tokenEndpoint clients codes sha256b64 dec qbRefresh now req).2.isSuccess = true) ∧
       (v ≠ ch →
        tokenEndpoint clients codes sha256b64 dec qbRefresh now req =
          (codes, .error 400 "invalid_grant" "Invalid code_verifier")))) := by
  have hdisp := tokenEndpoint_authCode clients codes sha256b64 dec qbRefresh now req cid cl
    hg hcid hcl hauth
  constructor
  · intro hm
    constructor
    · intro hsha
      have hverify : verifyCodeChallenge sha256b64 v ch
          (ac.code_challenge_method.getD "S256") = true := by
        unfold verifyCodeChallenge
        rw [if_neg hm]
        simp [hsha]
      obtain ⟨a, r, s, hsucc⟩ := authCodeGrant_success codes sha256b64 now req cid c ac
        hc hcne hget hown hred
        (by simp only [pkcePasses, hch]; exact Or.inr ⟨v, hv, hvne, hverify⟩) hexp
      rw [hdisp, hsucc]
      rfl
    · intro hsha
      have hverify : verifyCodeChallenge sha256b64 v ch
          (ac.code_challenge_method.getD "S256") = false := by
        unfold verifyCodeChallenge
        rw [if_neg hm]
        simp [hsha]
      rw [hdisp, authCodeGrant_pkce_fail codes sha256b64 now req cid c ch v ac
        hc hcne hget hown hred hch hchne hv hvne hverify]
  · intro hm
    constructor
    · intro hveq
      have hverify : verifyCodeChallenge sha256b64 v ch
          (ac.code_challenge_method.getD "S256") = true := by
        unfold verifyCodeChallenge
        rw [if_pos hm]
        simp [hveq]
      obtain ⟨a, r, s, hsucc⟩ := authCodeGrant_success codes sha256b64 now req cid c ac
        hc hcne hget hown hred
        (by simp only [pkcePasses, hch]; exact Or.inr ⟨v, hv, hvne, hverify⟩) hexp
      rw [hdisp, hsucc]
      rfl
    · intro hvne2
      have hverify : verifyCodeChallenge sha256b64 v ch
          (ac.code_challenge_method.getD "S256") = false := by
        unfold verifyCodeChallenge
        rw [if_pos hm]
        simp [hvne2]
      rw [hdisp, authCodeGrant_pkce_fail codes sha256b64 now req cid c ch v ac
        hc hcne hget hown hred hch hchne hv hvne hverify]

theorem c1_pkce_verification_witness :
    (tokenEndpoint sampleClients sampleCodes toySha noDec noQbRefresh 500
      (sampleReqWith "codeA" "v1")).2.isSuccess = true ∧
    tokenEndpoint sampleClients sampleCodes toySha noDec noQbRefresh 500
      (sampleReqWith "codeA" "v2") =
      (sampleCodes, .error 400 "invalid_grant" "Invalid code_verifier") ∧
    (tokenEndpoint sampleClients sampleCodes toySha noDec noQbRefresh 500
      (sampleReqWith "codeP" "v1")).2.isSuccess = true ∧
    tokenEndpoint sampleClients sampleCodes toySha noDec noQbRefresh 500
      (sampleReqWith "codeP" "v2") =
      (sampleCodes, .error 400 "invalid_grant" "Invalid code_verifier") := by
  refine ⟨?_, ?_, ?_, ?_⟩
  · exact ((c1_pkce_verification sampleClients sampleCodes toySha noDec noQbRefresh 500
      (sampleReqWith "codeA" "v1") "client1" sampleClient "codeA" "Hv1" "v1" sampleAuthCode
      rfl rfl rfl (Or.inl rfl) rfl (by decide) rfl rfl rfl (by decide) rfl (by decide)
      rfl (by decide)).1 (by decide)).1 (by decide)
  · exact ((c1_pkce_verification sampleClients sampleCodes toySha noDec noQbRefresh 500
      (sampleReqWith "codeA" "v2") "client1" sampleClient "codeA" "Hv1" "v2" sampleAuthCode
      rfl rfl rfl (Or.inl rfl) rfl (by decide) rfl rfl rfl (by decide) rfl (by decide)
      rfl (by decide)).1 (by decide)).2 (by decide)
  · exact ((c1_pkce_verification sampleClients sampleCodes toySha noDec noQbRefresh 500
      (sampleReqWith "codeP" "v1") "client1" sampleClient "codeP" "v1" "v1"
      sampleAuthCodePlain
      rfl rfl rfl (Or.inl rfl) rfl (by decide) rfl rfl rfl (by decide) rfl (by decide)
      rfl (by decide)).2 (by decide)).1 rfl
  · exact ((c1_pkce_verification sampleClients sampleCodes toySha noDec noQbRefresh 500
      (sampleReqWith "codeP" "v2") "client1" sampleClient "codeP" "v1" "v2"
      sampleAuthCodePlain
      rfl rfl rfl (Or.inl rfl) rfl (by decide) rfl rfl rfl (by decide) rfl (by decide)
      rfl (by decide)).2 (by decide)).2 (by decide)

/-- C2: Authorization codes are single-use.  Under the conditions that make
an authorization_code redemption succeed, the redemption does succeed, the
code is deleted from the returned store, and every later redemption of the
same code (by any request that passes client validation) fails with
invalid_grant while leaving the store unchanged. -/
theorem c2_single_use_codes
    (clients : Store OAuthClientRegistration) (codes : Store AuthorizationCode)
    (sha256b64 : String → String) (dec : String → Option StatelessTokenPayload)
    (qbRefresh : String → Option (String × String)) (now : Nat) (req : TokenRequest)
    (cid : String) (cl : OAuthClientRegistration) (c : String) (ac : AuthorizationCode)
    (hg : req.grant_type = some "authorization_code")
    (hcid : req.client_id = some cid) (hcl : clients.get cid = some cl)
    (hauth : cl.token_endpoint_auth_method = "none" ∨ cl.client_secret = req.client_secret)
    (hc : req.code = some c) (hcne : c ≠ "") (hget : codes.get c = some ac)
    (hown : ac.client_id = cid) (hred : req.redirect_uri = some ac.redirect_uri)
    (hpkce : pkcePasses sha256b64 req ac) (hexp : now ≤ ac.expires_at) :
    (tokenEndpoint clients codes sha256b64 dec qbRefresh now req).2.isSuccess = true ∧
    (tokenEndpoint clients codes sha256b64 dec qbRefresh now req).1.get c = none ∧
    (∀ (clients₂ : Store OAuthClientRegistration) (sha₂ : String → String)
      (dec₂ : String → Option StatelessTokenPayload)
      (qbRefresh₂ : String → Option (String × String)) (now₂ : Nat)
      (req₂ : TokenRequest) (cid₂ : String) (cl₂ : OAuthClientRegistration),
      req₂.grant_type = some "authorization_code" → req₂.code = some c →
      req₂.client_id = some cid₂ → clients₂.get cid₂ = some cl₂ →
      (cl₂.token_endpoint_auth_method = "none" ∨ cl₂.client_secret = req₂.client_secret) →
      tokenEndpoint clients₂ (tokenEndpoint clients codes sha256b64 dec qbRefresh now req).1
        sha₂ dec₂ qbRefresh₂ now₂ req₂ =
        ((tokenEndpoint clients codes sha256b64 dec qbRefresh now req).1,
         .error 400 "invalid_grant" "Invalid or expired authorization code")) := by
  obtain ⟨a, r, s, hsucc⟩ := authCodeGrant_success codes sha256b64 now req cid c ac
    hc hcne hget hown hred hpkce hexp
  have hdisp := tokenEndpoint_authCode clients codes sha256b64 dec qbRefresh now req cid cl
    hg hcid hcl hauth
  rw [hdisp, hsucc]
  refine ⟨rfl, Store.get_erase_self codes c, ?_⟩
  intro clients₂ sha₂ dec₂ qbRefresh₂ now₂ req₂ cid₂ cl₂ hg₂ hc₂ hcid₂ hcl₂ hauth₂
  rw [tokenEndpoint_authCode clients₂ (codes.erase c) sha₂ dec₂ qbRefresh₂ now₂ req₂
    cid₂ cl₂ hg₂ hcid₂ hcl₂ hauth₂,
    authCodeGrant_not_found (codes.erase c) sha₂ now₂ req₂ cid₂ c hc₂ hcne
      (Store.get_erase_self codes c)]

theorem c2_single_use_codes_witness :
    (tokenEndpoint sampleClients sampleCodes toySha noDec noQbRefresh 500
      sampleTokenRequest).2.isSuccess = true ∧
    (tokenEndpoint sampleClients sampleCodes toySha noDec noQbRefresh 500
      sampleTokenRequest).1.get "codeA" = none ∧
    tokenEndpoint sampleClients
      (tokenEndpoint sampleClients sampleCodes toySha noDec noQbRefresh 500
        sampleTokenRequest).1 toySha noDec noQbRefresh 600 sampleTokenRequest =
      ((tokenEndpoint sampleClients sampleCodes toySha noDec noQbRefresh 500
        sampleTokenRequest).1,
       .error 400 "invalid_grant" "Invalid or expired authorization code") := by
  have h := c2_single_use_codes sampleClients sampleCodes toySha noDec noQbRefresh 500
    sampleTokenRequest "client1" sampleClient "codeA" sampleAuthCode
    rfl rfl rfl (Or.inl rfl) rfl (by decide) rfl rfl rfl
    (by simp only [pkcePasses]
        exact Or.inr ⟨"v1", rfl, by decide, by decide⟩)
    (by decide)
  exact ⟨h.1, h.2.1, h.2.2 sampleClients toySha noDec noQbRefresh 600 sampleTokenRequest
    "client1" sampleClient rfl rfl rfl rfl (Or.inl rfl)⟩

/-- C10: a failed redemption does not consume the code.  If an
authorization_code-grant request carrying code c fails (any result other
than success) while c is present and unexpired, the authorization-code
store is returned unchanged, and a subsequent correct request for c still
succeeds. -/
theorem c10_failed_redemption_preserves_store
    (clients : Store OAuthClientRegistration) (codes : Store AuthorizationCode)
    (sha256b64 : String → String) (dec : String → Option StatelessTokenPayload)
    (qbRefresh : String → Option (String × String)) (now : Nat) (req : TokenRequest)
    (codes₂ : Store AuthorizationCode) (r : TokenResult) (c : String)
    (ac : AuthorizationCode)
    (h : tokenEndpoint clients codes sha256b64 dec qbRefresh now req = (codes₂, r))
    (hg : req.grant_type = some "authorization_code")
    (hc : req.code = some c) (hget : codes.get c = some ac)
    (hexp : now ≤ ac.expires_at) (hfail : r.isSuccess = false) :
    codes₂ = codes ∧
    (∀ (clients₃ : Store OAuthClientRegistration) (sha₃ : String → String)
      (dec₃ : String → Option StatelessTokenPayload)
      (qbRefresh₃ : String → Option (String × String)) (now₃ : Nat)
      (req₃ : TokenRequest) (cid₃ : String) (cl₃ : OAuthClientRegistration),
      req₃.grant_type = some "authorization_code" → req₃.code = some c → c ≠ "" →
      req₃.client_id = some cid₃ → clients₃.get cid₃ = some cl₃ →
      (cl₃.token_endpoint_auth_method = "none" ∨ cl₃.client_secret = req₃.client_secret) →
      ac.client_id = cid₃ → req₃.redirect_uri = some ac.redirect_uri →
      pkcePasses sha₃ req₃ ac → now₃ ≤ ac.expires_at →
      (tokenEndpoint clients₃ codes₂ sha₃ dec₃ qbRefresh₃ now₃ req₃).2.isSuccess = true) := by
  have hd : tokenEndpoint clients codes sha256b64 dec qbRefresh now req =
      (match clientAuth clients req with
       | .error e => (codes, e)
       | .ok cid => authCodeGrant codes sha256b64 now req cid) := by
    simp [tokenEndpoint, hg]
  have hstore : codes₂ = codes := by
    rcases hca : clientAuth clients req with e | cid
    · rw [hd, hca] at h
      dsimp only at h
      injection h with h1 h2
      exact h1.symm
    · rw [hd, hca] at h
      dsimp only at h
      have h1 : (authCodeGrant codes sha256b64 now req cid).1 = codes₂ := by rw [h]
      have h2 : (authCodeGrant codes sha256b64 now req cid).2 = r := by rw [h]
      rw [← h1]
      exact authCodeGrant_store_unchanged codes sha256b64 now req cid c ac hc hget hexp
        (by rw [h2]; exact hfail)
  subst hstore
  refine ⟨rfl, ?_⟩
  intro clients₃ sha₃ dec₃ qbRefresh₃ now₃ req₃ cid₃ cl₃ hg₃ hc₃ hcne₃ hcid₃ hcl₃ hauth₃
    hown₃ hred₃ hpkce₃ hexp₃
  obtain ⟨a, rr, s, hsucc⟩ := authCodeGrant_success codes₂ sha₃ now₃ req₃ cid₃ c ac
    hc₃ hcne₃ hget hown₃ hred₃ hpkce₃ hexp₃
  rw [tokenEndpoint_authCode clients₃ codes₂ sha₃ dec₃ qbRefresh₃ now₃ req₃ cid₃ cl₃
    hg₃ hcid₃ hcl₃ hauth₃, hsucc]
  rfl

theorem c10_failed_redemption_preserves_store_witness :
    tokenEndpoint sampleClients sampleCodes toySha noDec noQbRefresh 500
      (sampleReqWith "codeA" "v2") =
      (sampleCodes, .error 400 "invalid_grant" "Invalid code_verifier") ∧
    (tokenEndpoint sampleClients sampleCodes toySha noDec noQbRefresh 700
      sampleTokenRequest).2.isSuccess = true := by
  have hfirst : tokenEndpoint sampleClients sampleCodes toySha noDec noQbRefresh 500
      (sampleReqWith "codeA" "v2") =
      (sampleCodes, .error 400 "invalid_grant" "Invalid code_verifier") := by rfl
  have h := c10_failed_redemption_preserves_store sampleClients sampleCodes toySha noDec
    noQbRefresh 500 (sampleReqWith "codeA" "v2") sampleCodes
    (.error 400 "invalid_grant" "Invalid code_verifier") "codeA" sampleAuthCode
    hfirst rfl rfl rfl (by decide) rfl
  exact ⟨hfirst, h.2 sampleClients toySha noDec noQbRefresh 700 sampleTokenRequest
    "client1" sampleClient rfl rfl (by decide) rfl rfl (Or.inl rfl) rfl rfl
    (by simp only [pkcePasses]
        exact Or.inr ⟨"v1", rfl, by decide, by decide⟩)
    (by decide)⟩

/-- C4 (counterexample): the claim asserts rejection at exactly expires_at;
the code accepts a token whose expires_at equals the current time, because
the check is strict (Date.now() > expires_at). -/
theorem c4_counterexample :
    accessPayloadSample.expires_at = 1000 ∧
    (validateAccessToken (decOf accessPayloadSample) [] 1000 "tok").1 =
      some { client_id := "client1", access_token := "tok", refresh_token := none,
             expires_at := 1000, realm_id := some "realm1",
             qb_access_token := some "qa", qb_refresh_token := some "qr" } :=
  ⟨rfl, rfl⟩

/-- C4 (amended): expiry boundary with strict comparison.  An access-token
payload validates at every time up to and including expires_at and is
rejected strictly after it; an authorization code is accepted up to and
including its expires_at and rejected strictly after; a refresh payload is
accepted up to and including its expires_at and rejected strictly after. -/
theorem c4_expiry_boundary :
    (∀ (dec : String → Option StatelessTokenPayload) (ats : Store TokenData)
      (now : Nat) (t : String) (p : StatelessTokenPayload),
      dec t = some p → p.type = "access" →
      ((now ≤ p.expires_at → (validateAccessToken dec ats now t).1 ≠ none) ∧
       (p.expires_at < now → (validateAccessToken dec ats now t).1 = none))) ∧
    (∀ (clients : Store OAuthClientRegistration) (codes : Store AuthorizationCode)
      (sha256b64 : String → String) (dec : String → Option StatelessTokenPayload)
      (qbRefresh : String → Option (String × String)) (now : Nat) (req : TokenRequest)
      (cid : String) (cl : OAuthClientRegistration) (c : String) (ac : AuthorizationCode),
      req.grant_type = some "authorization_code" → req.client_id = some cid →
      clients.get cid = some cl →
      (cl.token_endpoint_auth_method = "none" ∨ cl.client_secret = req.client_secret) →
      req.code = some c → c ≠ "" → codes.get c = some ac → ac.client_id = cid →
      req.redirect_uri = some ac.redirect_uri → pkcePasses sha256b64 req ac →
      ((now ≤ ac.expires_at →
        (tokenEndpoint clients codes sha256b64 dec qbRefresh now req).2.isSuccess = true) ∧
       (ac.expires_at < now →
        tokenEndpoint clients codes sha256b64 dec qbRefresh now req =
          (codes.erase c, .error 400 "invalid_grant" "Authorization code has expired")))) ∧
    (∀ (dec : String → Option StatelessTokenPayload)
      (qbRefresh : String → Option (String × String)) (now : Nat) (req : TokenRequest)
      (rt : String) (p : StatelessTokenPayload),
      req.refresh_token = some rt → rt ≠ "" → dec rt = some p → p.type = "refresh" →
      (truthy req.client_id = false ∨ req.client_id = some p.client_id) →
      ((now ≤ p.expires_at → (refreshGrant dec qbRefresh now req).isSuccess = true) ∧
       (p.expires_at < now → refreshGrant dec qbRefresh now req =
          .error 400 "invalid_grant" "Refresh token has expired"))) := by
  refine ⟨?_, ?_, ?_⟩
  · intro dec ats now t p hdec hty
    constructor
    · intro hle
      rw [validateAccessToken_valid dec ats now t p hdec hty hle]
      simp
    · intro hlt
      exact validateAccessToken_expired dec ats now t p hdec hty hlt
  · intro clients codes sha256b64 dec qbRefresh now req cid cl c ac hg hcid hcl hauth
      hc hcne hget hown hred hpkce
    constructor
    · intro hle
      obtain ⟨a, r, s, hsucc⟩ := authCodeGrant_success codes sha256b64 now req cid c ac
        hc hcne hget hown hred hpkce hle
      rw [tokenEndpoint_authCode clients codes sha256b64 dec qbRefresh now req cid cl
        hg hcid hcl hauth, hsucc]
      rfl
    · intro hlt
      rw [tokenEndpoint_authCode clients codes sha256b64 dec qbRefresh now req cid cl
        hg hcid hcl hauth,
        authCodeGrant_expired codes sha256b64 now req cid c ac hc hcne hget hown hred
          hpkce hlt]
  · intro dec qbRefresh now req rt p hrt hrtne hdec hty hcc
    constructor
    · intro hle
      obtain ⟨a, r, hs⟩ := refreshGrant_ok dec qbRefresh now req rt p hrt hrtne hdec hty
        hle hcc
      rw [hs]
      rfl
    · intro hlt
      exact refreshGrant_expired dec qbRefresh now req rt p hrt hrtne hdec hty hlt

theorem c4_expiry_boundary_witness :
    (validateAccessToken (decOf accessPayloadSample) [] 1000 "tok").1 ≠ none ∧
    (validateAccessToken (decOf accessPayloadSample) [] 1001 "tok").1 = none ∧
    (tokenEndpoint sampleClients sampleCodes toySha noDec noQbRefresh 10000
      sampleTokenRequest).2.isSuccess = true ∧
    tokenEndpoint sampleClients sampleCodes toySha noDec noQbRefresh 10001
      sampleTokenRequest =
      (sampleCodes.erase "codeA",
       .error 400 "invalid_grant" "Authorization code has expired") ∧
    (refreshGrant (decOf refreshPayloadSample) noQbRefresh 1000
      sampleRefreshRequest).isSuccess = true ∧
    refreshGrant (decOf refreshPayloadSample) noQbRefresh 1001 sampleRefreshRequest =
      .error 400 "invalid_grant" "Refresh token has expired" := by
  have h := c4_expiry_boundary
  have hpk : pkcePasses toySha sampleTokenRequest sampleAuthCode := by
    simp only [pkcePasses]
    exact Or.inr ⟨"v1", rfl, by decide, by decide⟩
  refine ⟨?_, ?_, ?_, ?_, ?_, ?_⟩
  · exact (h.1 (decOf accessPayloadSample) [] 1000 "tok" accessPayloadSample rfl rfl).1
      (by decide)
  · exact (h.1 (decOf accessPayloadSample) [] 1001 "tok" accessPayloadSample rfl rfl).2
      (by decide)
  · exact (h.2.1 sampleClients sampleCodes toySha noDec noQbRefresh 10000
      sampleTokenRequest "client1" sampleClient "codeA" sampleAuthCode rfl rfl rfl
      (Or.inl rfl) rfl (by decide) rfl rfl rfl hpk).1 (by decide)
  · exact (h.2.1 sampleClients sampleCodes toySha noDec noQbRefresh 10001
      sampleTokenRequest "client1" sampleClient "codeA" sampleAuthCode rfl rfl rfl
      (Or.inl rfl) rfl (by decide) rfl rfl rfl hpk).2 (by decide)
  · exact (h.2.2 (decOf refreshPayloadSample) noQbRefresh 1000 sampleRefreshRequest
      "tok" refreshPayloadSample rfl (by decide) rfl rfl (Or.inl rfl)).1 (by decide)
  · exact (h.2.2 (decOf refreshPayloadSample) noQbRefresh 1001 sampleRefreshRequest
      "tok" refreshPayloadSample rfl (by decide) rfl rfl (Or.inl rfl)).2 (by decide)

/-- C5: wrong-kind token rejection.  A successfully decrypted payload whose
kind is not "refresh" is rejected by the refresh_token grant with
invalid_grant, and one whose kind is not "access" is rejected by
access-token validation (no credentials returned). -/
theorem c5_wrong_kind_rejection :
    (∀ (clients : Store OAuthClientRegistration) (codes : Store AuthorizationCode)
      (sha256b64 : String → String) (dec : String → Option StatelessTokenPayload)
      (qbRefresh : String → Option (String × String)) (now : Nat) (req : TokenRequest)
      (rt : String) (p : StatelessTokenPayload),
      req.grant_type = some "refresh_token" → req.refresh_token = some rt → rt ≠ "" →
      dec rt = some p → p.type ≠ "refresh" →
      tokenEndpoint clients codes sha256b64 dec qbRefresh now req =
        (codes, .error 400 "invalid_grant" "Token is not a refresh token")) ∧
    (∀ (dec : String → Option StatelessTokenPayload) (ats : Store TokenData)
      (now : Nat) (t : String) (p : StatelessTokenPayload),
      dec t = some p → p.type ≠ "access" →
      (validateAccessToken dec ats now t).1 = none) := by
  constructor
  · intro clients codes sha256b64 dec qbRefresh now req rt p hg hrt hrtne hdec hty
    rw [tokenEndpoint_refresh clients codes sha256b64 dec qbRefresh now req hg,
      refreshGrant_wrong_type dec qbRefresh now req rt p hrt hrtne hdec hty]
  · intro dec ats now t p hdec hty
    exact validateAccessToken_wrong_type dec ats now t p hdec hty

theorem c5_wrong_kind_rejection_witness :
    tokenEndpoint [] [] toySha (decOf bananaPayloadSample) noQbRefresh 0
      sampleRefreshRequest =
      ([], .error 400 "invalid_grant" "Token is not a refresh token") ∧
    (validateAccessToken (decOf bananaPayloadSample) [] 0 "tok").1 = none := by
  have h := c5_wrong_kind_rejection
  exact ⟨h.1 [] [] toySha (decOf bananaPayloadSample) noQbRefresh 0 sampleRefreshRequest
      "tok" bananaPayloadSample rfl rfl (by decide) rfl (by decide),
    h.2 (decOf bananaPayloadSample) [] 0 "tok" bananaPayloadSample rfl (by decide)⟩

theorem checkRedirectUris_none (uris : List String)
    (h : ∀ u ∈ uris, uriAllowed u = true) : checkRedirectUris uris = none := by
  induction uris with
  | nil => rfl
  | cons a t ih =>
    have ha := h a (by simp)
    simp only [uriAllowed] at ha
    rcases hp : parseURL a with _ | url
    · rw [hp] at ha
      exact absurd ha (by simp)
    · rw [hp] at ha
      simp only [checkRedirectUris, hp]
      rw [if_neg (by
        intro hcond
        rcases (by simpa using ha :
            (url.hostname = "localhost" ∨ url.hostname = "127.0.0.1") ∨
              url.protocol = "https:") with (h1 | h1) | h1
        · exact hcond.1 (Or.inl h1)
        · exact hcond.1 (Or.inr h1)
        · exact hcond.2 h1)]
      exact ih (fun u hu => h u (by simp [hu]))

theorem checkRedirectUris_rejects (uris : List String) (uri : String)
    (hmem : uri ∈ uris) (hbad : uriAllowed uri = false) :
    ∃ e d, checkRedirectUris uris = some (.rejected 400 e d) := by
  induction uris with
  | nil => cases hmem
  | cons a t ih =>
    by_cases hal : uriAllowed a = true
    · have hmt : uri ∈ t := by
        rcases List.mem_cons.mp hmem with rfl | hm
        · rw [hal] at hbad
          cases hbad
        · exact hm
      simp only [uriAllowed] at hal
      rcases hp : parseURL a with _ | url
      · rw [hp] at hal
        exact absurd hal (by simp)
      · rw [hp] at hal
        simp only [checkRedirectUris, hp]
        rw [if_neg (by
          intro hcond
          rcases (by simpa using hal :
              (url.hostname = "localhost" ∨ url.hostname = "127.0.0.1") ∨
                url.protocol = "https:") with (h1 | h1) | h1
          · exact hcond.1 (Or.inl h1)
          · exact hcond.1 (Or.inr h1)
          · exact hcond.2 h1)]
        exact ih hmt
    · simp only [uriAllowed] at hal
      rcases hp : parseURL a with _ | url
      · exact ⟨"invalid_redirect_uri", "Invalid redirect URI: " ++ a,
          by simp only [checkRedirectUris, hp]⟩
      · rw [hp] at hal
        have hcond : ¬ (url.hostname = "localhost" ∨ url.hostname = "127.0.0.1") ∧
            ¬ url.protocol = "https:" := by
          constructor
          · intro h1
            rcases h1 with h1 | h1 <;> simp [h1] at hal
          · intro h1
            simp [h1] at hal
        exact ⟨"invalid_redirect_uri", "Redirect URIs must be localhost URLs or HTTPS URLs",
          by simp only [checkRedirectUris, hp]; rw [if_pos hcond]⟩

/-- C6: DCR redirect-URI policy.  Registration rejects with 400 any request
whose redirect_uris is missing or empty, or contains a URI that is not a
localhost/127.0.0.1 URL and not an https URL (unparseable URIs included);
a nonempty list of allowed URIs is accepted and answered (201) with the
freshly generated client_id.  In particular the list with
http://example.com/cb is rejected while the lists with
http://localhost:4000/cb and https://app.example.com/cb are accepted. -/
theorem c6_dcr_redirect_uri_policy :
    (∀ (clients : Store OAuthClientRegistration) (fid fsec : String) (now : Nat)
      (req : RegisterRequest),
      (req.redirect_uris = none ∨ req.redirect_uris = some ([] : List String)) →
      (registerEndpoint clients fid fsec now req).2 =
        .rejected 400 "invalid_client_metadata"
          "redirect_uris is required and must be a non-empty array") ∧
    (∀ (clients : Store OAuthClientRegistration) (fid fsec : String) (now : Nat)
      (req : RegisterRequest) (uris : List String) (uri : String),
      req.redirect_uris = some uris → uri ∈ uris → uriAllowed uri = false →
      ∃ e d, (registerEndpoint clients fid fsec now req).2 = .rejected 400 e d) ∧
    (∀ (clients : Store OAuthClientRegistration) (fid fsec : String) (now : Nat)
      (req : RegisterRequest) (uris : List String),
      req.redirect_uris = some uris → uris ≠ [] →
      (∀ u ∈ uris, uriAllowed u = true) →
      ∃ sec name gt rt m,
        (registerEndpoint clients fid fsec now req).2 =
          .created fid sec name uris gt rt m (now / 1000)) ∧
    ((registerEndpoint [] "fresh-id" "sec" 5000 (regReq ["http://example.com/cb"])).2 =
      .rejected 400 "invalid_redirect_uri"
        "Redirect URIs must be localhost URLs or HTTPS URLs") ∧
    ((registerEndpoint [] "fresh-id" "sec" 5000 (regReq ["http://localhost:4000/cb"])).2 =
      .created "fresh-id" none "MCP Client fresh-id" ["http://localhost:4000/cb"]
        ["authorization_code", "refresh_token"] ["code"] "none" 5) ∧
    ((registerEndpoint [] "fresh-id" "sec" 5000 (regReq ["https://app.example.com/cb"])).2 =
      .created "fresh-id" none "MCP Client fresh-id" ["https://app.example.com/cb"]
        ["authorization_code", "refresh_token"] ["code"] "none" 5) := by
  refine ⟨?_, ?_, ?_, by decide, by decide, by decide⟩
  · intro clients fid fsec now req h
    rcases h with h | h <;> simp [registerEndpoint, h]
  · intro clients fid fsec now req uris uri hsome hmem hbad
    obtain ⟨e, d, hchk⟩ := checkRedirectUris_rejects uris uri hmem hbad
    have hne : uris.length ≠ 0 := by
      intro h0
      rw [List.length_eq_zero.mp h0] at hmem
      cases hmem
    exact ⟨e, d, by simp [registerEndpoint, hsome, hne, hchk]⟩
  · intro clients fid fsec now req uris hsome hne hall
    have hlen : uris.length ≠ 0 := by
      intro h0
      exact hne (List.length_eq_zero.mp h0)
    refine ⟨(if req.token_endpoint_auth_method.getD "none" ≠ "none" then some fsec else none),
      (match req.client_name with
       | some n => if n = "" then "MCP Client " ++ String.mk (fid.data.take 8) else n
       | none => "MCP Client " ++ String.mk (fid.data.take 8)),
      req.grant_types.getD ["authorization_code", "refresh_token"],
      req.response_types.getD ["code"],
      req.token_endpoint_auth_method.getD "none", ?_⟩
    simp only [registerEndpoint, hsome, if_neg hlen, checkRedirectUris_none uris hall]

theorem c6_dcr_redirect_uri_policy_witness :
    (registerEndpoint [] "fresh-id" "sec" 5000
      { client_name := none, redirect_uris := none, grant_types := none,
        response_types := none, token_endpoint_auth_method := none }).2 =
      .rejected 400 "invalid_client_metadata"
        "redirect_uris is required and must be a non-empty array" ∧
    (∃ e d, (registerEndpoint [] "fresh-id" "sec" 5000
        (regReq ["http://example.com/cb"])).2 = .rejected 400 e d) ∧
    (∃ sec name gt rt m, (registerEndpoint [] "fresh-id" "sec" 5000
        (regReq ["http://localhost:4000/cb"])).2 =
      .created "fresh-id" sec name ["http://localhost:4000/cb"] gt rt m 5) := by
  have h := c6_dcr_redirect_uri_policy
  refine ⟨h.1 [] "fresh-id" "sec" 5000 _ (Or.inl rfl),
    h.2.1 [] "fresh-id" "sec" 5000 (regReq ["http://example.com/cb"])
      ["http://example.com/cb"] "http://example.com/cb" rfl (by simp) (by decide), ?_⟩
  exact h.2.2.1 [] "fresh-id" "sec" 5000 (regReq ["http://localhost:4000/cb"])
    ["http://localhost:4000/cb"] rfl (by decide) (by decide)

theorem callbackEndpoint_found (pending : Store PendingAuthorization)
    (codes : Store AuthorizationCode) (freshCode : String)
    (exchange : Option QBTokenResponse) (now : Nat) (req : CallbackRequest)
    (s : String) (pa : PendingAuthorization)
    (hs : req.state = some s) (hget : pending.get s = some pa) :
    (callbackEndpoint pending codes freshCode exchange now req).1 = pending.erase s ∧
    (callbackEndpoint pending codes freshCode exchange now req).2.2 ≠
      CallbackResult.invalidState := by
  simp only [callbackEndpoint, hs, hget]
  cases he : truthy req.error
  · rcases exchange with _ | qb <;> simp [he]
  · simp [he]

/-- C7: pending-authorization one-shot consumption.  A callback whose state
has no stored entry (missing parameter, unknown value, or a value already
consumed by an earlier callback) terminates with the 400 "Invalid or
expired authorization state" page — no redirect to any client, both stores
untouched.  A callback that finds the entry removes it, so a repeated
callback with the same state fails that way. -/
theorem c7_pending_one_shot :
    (∀ (pending : Store PendingAuthorization) (codes : Store AuthorizationCode)
      (freshCode : String) (exchange : Option QBTokenResponse) (now : Nat)
      (req : CallbackRequest),
      req.state = none →
      callbackEndpoint pending codes freshCode exchange now req =
        (pending, codes, .invalidState)) ∧
    (∀ (pending : Store PendingAuthorization) (codes : Store AuthorizationCode)
      (freshCode : String) (exchange : Option QBTokenResponse) (now : Nat)
      (req : CallbackRequest) (s : String),
      req.state = some s → pending.get s = none →
      callbackEndpoint pending codes freshCode exchange now req =
        (pending, codes, .invalidState)) ∧
    (∀ (pending : Store PendingAuthorization) (codes : Store AuthorizationCode)
      (freshCode : String) (exchange : Option QBTokenResponse) (now : Nat)
      (req : CallbackRequest) (s : String) (pa : PendingAuthorization),
      req.state = some s → pending.get s = some pa →
      ((callbackEndpoint pending codes freshCode exchange now req).1.get s = none ∧
       (callbackEndpoint pending codes freshCode exchange now req).2.2 ≠
         CallbackResult.invalidState ∧
       (∀ (codes₂ : Store AuthorizationCode) (freshCode₂ : String)
         (exchange₂ : Option QBTokenResponse) (now₂ : Nat) (req₂ : CallbackRequest),
         req₂.state = some s →
         callbackEndpoint (callbackEndpoint pending codes freshCode exchange now req).1
           codes₂ freshCode₂ exchange₂ now₂ req₂ =
           ((callbackEndpoint pending codes freshCode exchange now req).1, codes₂,
            .invalidState)))) := by
  refine ⟨?_, ?_, ?_⟩
  · intro pending codes freshCode exchange now req hs
    simp [callbackEndpoint, hs]
  · intro pending codes freshCode exchange now req s hs hget
    simp [callbackEndpoint, hs, hget]
  · intro pending codes freshCode exchange now req s pa hs hget
    obtain ⟨h1, h2⟩ := callbackEndpoint_found pending codes freshCode exchange now req
      s pa hs hget
    refine ⟨by rw [h1]; exact Store.get_erase_self pending s, h2, ?_⟩
    intro codes₂ freshCode₂ exchange₂ now₂ req₂ hs₂
    rw [h1]
    simp [callbackEndpoint, hs₂, Store.get_erase_self pending s]

theorem c7_pending_one_shot_witness :
    callbackEndpoint [] [] "codeN" (some sampleQBTokens) 100 sampleCallbackRequest =
      ([], [], .invalidState) ∧
    (callbackEndpoint [("st1", samplePending)] [] "codeN" (some sampleQBTokens) 100
      sampleCallbackRequest).1.get "st1" = none ∧
    (callbackEndpoint [("st1", samplePending)] [] "codeN" (some sampleQBTokens) 100
      sampleCallbackRequest).2.2 ≠ CallbackResult.invalidState ∧
    callbackEndpoint
      (callbackEndpoint [("st1", samplePending)] [] "codeN" (some sampleQBTokens) 100
        sampleCallbackRequest).1 [] "codeM" (some sampleQBTokens) 200
      sampleCallbackRequest =
      ((callbackEndpoint [("st1", samplePending)] [] "codeN" (some sampleQBTokens) 100
        sampleCallbackRequest).1, [], .invalidState) := by
  have h := c7_pending_one_shot
  have h3 := h.2.2 [("st1", samplePending)] [] "codeN" (some sampleQBTokens) 100
    sampleCallbackRequest "st1" samplePending rfl rfl
  exact ⟨h.2.1 [] [] "codeN" (some sampleQBTokens) 100 sampleCallbackRequest "st1" rfl rfl,
    h3.1, h3.2.1, h3.2.2 [] "codeM" (some sampleQBTokens) 200 sampleCallbackRequest rfl⟩

/-- C8 (counterexample): the claim says the state passed upstream is never
equal to the client-supplied state, but no inequality is enforced: when the
16-byte random token happens to equal the client state, the two coincide. -/
theorem c8_counterexample :
    (sampleAuthorizeReq "abc").state = some "abc" ∧
    (authorizeEndpoint sampleClients [] "abc" (sampleAuthorizeReq "abc")).2 =
      .redirectUpstream "abc" := ⟨rfl, rfl⟩

/-- C8 (amended): on every successful /authorize request the upstream-facing
state is exactly the freshly generated internal correlation token — not the
client state — and the client state is stored in the PendingAuthorization
entry keyed by that token; the two coincide only when the random token
happens to equal the client state. -/
theorem c8_state_separation
    (clients : Store OAuthClientRegistration) (pending : Store PendingAuthorization)
    (internalState : String) (req : AuthorizeRequest) (cid : String)
    (cl : OAuthClientRegistration) (ru : String)
    (hrt : req.response_type = some "code")
    (hcid : req.client_id = some cid) (hcidne : cid ≠ "")
    (hcl : clients.get cid = some cl)
    (hru : req.redirect_uri = some ru) (hrune : ru ≠ "") (hmem : ru ∈ cl.redirect_uris)
    (hcc : truthy req.code_challenge = true) :
    (authorizeEndpoint clients pending internalState req).2 =
      .redirectUpstream internalState ∧
    (authorizeEndpoint clients pending internalState req).1.get internalState =
      some { client_id := cid, redirect_uri := ru, state := req.state,
             code_challenge := req.code_challenge,
             code_challenge_method := some (req.code_challenge_method.getD "S256"),
             scope := req.scope } ∧
    (∀ cs, req.state = some cs → cs ≠ internalState →
      (authorizeEndpoint clients pending internalState req).2 ≠
        .redirectUpstream cs) := by
  have hres : authorizeEndpoint clients pending internalState req =
      (pending.set internalState
        { client_id := cid, redirect_uri := ru, state := req.state,
          code_challenge := req.code_challenge,
          code_challenge_method := some (req.code_challenge_method.getD "S256"),
          scope := req.scope },
       .redirectUpstream internalState) := by
    have htr : truthy req.client_id = true := by
      rw [hcid]
      simp [truthy, hcidne]
    have hnotor : ¬ (ru = "" ∨ ru ∉ cl.redirect_uris) := by
      intro hor
      rcases hor with h | h
      · exact hrune h
      · exact h hmem
    simp only [authorizeEndpoint, hrt, ne_eq, not_true_eq_false, if_false, htr,
      Bool.true_eq_false, hcid, hcl, hru, if_neg hnotor, hcc, not_false_eq_true]
    simp [truthy, hcidne, hcc]
  rw [hres]
  refine ⟨rfl, Store.get_set_self pending internalState _, ?_⟩
  intro cs hcs hne hcontra
  injection hcontra with hh
  exact hne hh.symm

theorem c8_state_separation_witness :
    (authorizeEndpoint sampleClients [] "fresh-state" (sampleAuthorizeReq "cs")).2 =
      .redirectUpstream "fresh-state" ∧
    (authorizeEndpoint sampleClients [] "fresh-state"
      (sampleAuthorizeReq "cs")).1.get "fresh-state" =
      some { client_id := "client1", redirect_uri := "https://app.example.com/cb",
             state := some "cs", code_challenge := some "Hv1",
             code_challenge_method := some "S256", scope := none } ∧
    (authorizeEndpoint sampleClients [] "fresh-state" (sampleAuthorizeReq "cs")).2 ≠
      .redirectUpstream "cs" := by
  have h := c8_state_separation sampleClients [] "fresh-state" (sampleAuthorizeReq "cs")
    "client1" sampleClient "https://app.example.com/cb" rfl rfl (by decide) rfl rfl
    (by decide) (by decide) (by decide)
  exact ⟨h.1, h.2.1, h.2.2 "cs" rfl (by decide)⟩

/-- C9: the code keeps a PendingAuthorization redeemable forever.  A pending
entry stores no expiry and the callback lookup checks none: at every time
now, however far beyond the creation of the entry, the callback for its
state token still does not fail with the invalid-state error — contradicting
the requirement that every entry becomes unredeemable after a finite bound. -/
theorem c9_pending_never_expires :
    ∀ now : Nat,
      (callbackEndpoint [("st1", samplePending)] [] "codeN" (some sampleQBTokens) now
        sampleCallbackRequest).2.2 ≠ CallbackResult.invalidState := by
  intro now
  exact (callbackEndpoint_found [("st1", samplePending)] [] "codeN"
    (some sampleQBTokens) now sampleCallbackRequest "st1" samplePending rfl rfl).2
